import Mathlib

/-!
# Verification of the Mpita medical-appointment backend

A shallow embedding, in Lean 4, of the request handlers, Pydantic validators
and external-API clients of the Mpita backend (FastAPI + SQLAlchemy), together
with theorems settling the specification claims about them.

Conventions of the embedding:
* Python `datetime` values are modelled as `Int` microsecond ticks
  (the resolution of `datetime`); `timedelta(days = d)` is `d * microsPerDay`.
* Database sessions are modelled by explicit state passing: a handler takes the
  database and returns the database after commit, together with its result.
* A raised `HTTPException(code, detail)` is the result `Resp.httpError code detail`;
  an exception that escapes the handler is `Resp.uncaughtExc`.
* External I/O (HTTP calls to the Daraja/Safaricom vendor API, SMTP) is modelled
  by a "world" record fixing the outcome of each external interaction, and each
  client function additionally returns the trace of external calls it performed.
-/

namespace Mpita

/-! ## Enumerations (`app/models.py`) -/

/-- Model of `UserRole` in `app/models.py`. -/
inductive UserRole where
  | patient
  | admin
deriving Repr, DecidableEq

/-- Model of `AppointmentStatus` in `app/models.py`. -/
inductive AppointmentStatus where
  | pending
  | confirmed
  | completed
  | cancelled
deriving Repr, DecidableEq

/-- Model of `PaymentStatus` in `app/models.py`. -/
inductive PaymentStatus where
  | pending
  | completed
  | failed
  | refunded
deriving Repr, DecidableEq

/-- Model of `NotificationType` in `app/models.py`. -/
inductive NotificationType where
  | info
  | warning
  | alert
deriving Repr, DecidableEq

/-! ## Rows of the database tables (`app/models.py`) -/

/-- A row of the `users` table (`class User` in `app/models.py`).
`created_at`/`updated_at` timestamps and the ORM relationship attributes are
not materialised on the row; the relationship contents live in the tables of
`Db` below. -/
structure User where
  id : Nat
  name : String
  email : String
  phone : String
  occupation : Option String
  national_id : Option String
  otp : Option String
  hashed_password : String
  role : UserRole
  is_active : Bool
deriving Repr, DecidableEq

/-- A row of the `appointments` table (`class Appointment` in `app/models.py`). -/
structure Appointment where
  id : Nat
  user_id : Nat
  specialist : String
  service_type : String
  appointment_date : Int
  status : AppointmentStatus
  notes : Option String
deriving Repr, DecidableEq

/-- A row of the `payments` table (`class Payment` in `app/models.py`). -/
structure Payment where
  id : Nat
  user_id : Nat
  appointment_id : Option Nat
  transaction_code : String
  amount : Rat
  status : PaymentStatus
  phone_number : Option String
  description : Option String
deriving Repr, DecidableEq

/-- A row of the `notifications` table (`class Notification` in `app/models.py`). -/
structure Notification where
  id : Nat
  user_id : Nat
  type : NotificationType
  message : String
  is_read : Bool
deriving Repr, DecidableEq

/-- The database state: the tables touched by the handlers under verification. -/
structure Db where
  users : List User
  appointments : List Appointment
  payments : List Payment
  notifications : List Notification
deriving Repr, DecidableEq

/-! ## Handler results -/

/-- Decidable equality for `Except`, so that concrete handler outcomes can be
checked by evaluation. -/
instance {ε α : Type} [DecidableEq ε] [DecidableEq α] :
    DecidableEq (Except ε α) := fun a b =>
  match a, b with
  | .ok x, .ok y =>
      if h : x = y then .isTrue (by rw [h]) else .isFalse (by simp [h])
  | .error x, .error y =>
      if h : x = y then .isTrue (by rw [h]) else .isFalse (by simp [h])
  | .ok _, .error _ => .isFalse (by simp)
  | .error _, .ok _ => .isFalse (by simp)

/-- Python exceptions that the embedded code can raise. -/
inductive PyExc where
  | runtimeError (msg : String)
  | httpStatusError (status : Nat)
  | attributeError (name : String)
  | keyError (key : String)
  | smtpError
deriving Repr, DecidableEq

/-- Outcome of a request handler: a normal return value, a raised
`HTTPException(code, detail)`, or an exception escaping the handler. -/
inductive Resp (α : Type) where
  | ok (a : α)
  | httpError (code : Nat) (detail : String)
  | uncaughtExc (e : PyExc)
deriving Repr, DecidableEq

/-! ## String helpers shared by the Pydantic validators -/

/-- Characters matched by `\s` in a Python `re` pattern over `str` (the
characters for which `str.isspace()` holds): ASCII whitespace, the information
separators, NEL, and the Unicode space characters. -/
def isPySpace (c : Char) : Bool :=
  c == ' ' || c == '\t' || c == '\n' || c == '\x0b' || c == '\x0c' || c == '\r' ||
  c == '\x1c' || c == '\x1d' || c == '\x1e' || c == '\x1f' ||
  c == '\x85' || c == '\xa0' || c == '\u1680' ||
  ('\u2000' ≤ c && c ≤ '\u200a') ||
  c == '\u2028' || c == '\u2029' || c == '\u202f' || c == '\u205f' || c == '\u3000'

/-- Model of `re.sub(r'\s+', '', v)`: delete every whitespace character of `v`. -/
def stripWhitespace (v : String) : String :=
  String.mk (v.data.filter (fun c => !(isPySpace c)))

/-- Model of `[0-9]` of the phone regex: an ASCII decimal digit. -/
def isAsciiDigit (c : Char) : Bool := '0' ≤ c && c ≤ '9'

/-- Model of `[A-Z]` of the password checks: an ASCII uppercase letter. -/
def isAsciiUpper (c : Char) : Bool := 'A' ≤ c && c ≤ 'Z'

/-- Model of `[a-z]` of the password checks: an ASCII lowercase letter. -/
def isAsciiLower (c : Char) : Bool := 'a' ≤ c && c ≤ 'z'

/-- The plain reading of `\+?[0-9]{10,15}` matched against the whole string:
an optional leading `+` followed by 10 to 15 ASCII digits. -/
def phonePattern (s : String) : Bool :=
  match s.data with
  | '+' :: rest => decide (10 ≤ rest.length) && decide (rest.length ≤ 15) && rest.all isAsciiDigit
  | l => decide (10 ≤ l.length) && decide (l.length ≤ 15) && l.all isAsciiDigit

/-- Model of `re.match(r'^\+?[0-9]{10,15}$', s) is not None` for a Python `str`:
`$` also matches just before a trailing `'\n'`, so the pattern accepts the
plain match and the plain match of the string with one trailing newline
removed. -/
def pyPhoneMatch (s : String) : Bool :=
  phonePattern s ||
    (s.data.getLast? == some '\n' && phonePattern (String.mk s.data.dropLast))

/-! ## Pydantic validators of `app/routers/users.py` -/

/-- Model of `UserRegister.validate_phone` (`app/routers/users.py`): strip all
whitespace, then require the phone regex; the stripped value is returned. -/
def userRegisterValidatePhone (v : String) : Except String String :=
  let phone := stripWhitespace v
  if !(pyPhoneMatch phone) then .error "Invalid phone number format"
  else .ok phone

/-- Model of `UserUpdate.validate_phone` (`app/routers/users.py`): the field is
optional; a falsy value (`None`, or the empty string) is returned unvalidated
(`if v:`), otherwise whitespace is stripped and the regex is required. -/
def userUpdateValidatePhone (v : Option String) : Except String (Option String) :=
  match v with
  | none => .ok none
  | some s =>
      if s.isEmpty then .ok (some s)
      else
        let phone := stripWhitespace s
        if !(pyPhoneMatch phone) then .error "Invalid phone number format"
        else .ok (some phone)

/-- Model of `UserRegister.validate_password` (`app/routers/users.py`): at least 8
characters, and `re.search` must find `[A-Z]`, `[a-z]` and `[0-9]`. -/
def userRegisterValidatePassword (v : String) : Except String String :=
  if v.length < 8 then .error "Password must be at least 8 characters"
  else if !(v.data.any isAsciiUpper) then
    .error "Password must contain at least one uppercase letter"
  else if !(v.data.any isAsciiLower) then
    .error "Password must contain at least one lowercase letter"
  else if !(v.data.any isAsciiDigit) then
    .error "Password must contain at least one digit"
  else .ok v

/-- Model of `PasswordChange.validate_password` (`app/routers/users.py`): the same four
checks as the registration validator, on `new_password`. -/
def passwordChangeValidatePassword (v : String) : Except String String :=
  if v.length < 8 then .error "Password must be at least 8 characters"
  else if !(v.data.any isAsciiUpper) then
    .error "Password must contain at least one uppercase letter"
  else if !(v.data.any isAsciiLower) then
    .error "Password must contain at least one lowercase letter"
  else if !(v.data.any isAsciiDigit) then
    .error "Password must contain at least one digit"
  else .ok v

/-! ## Registration and account handlers (`app/routers/users.py`) -/

/-- The fields of a `UserRegister` body after Pydantic validation
(`phone` already whitespace-stripped, `password` already checked). -/
structure UserRegisterData where
  name : String
  email : String
  phone : String
  national_id : String
  otp : String
  occupation : Option String
  password : String
deriving Repr, DecidableEq

/-- Model of `hash_password` of `app/utils/security.py`. The bcrypt digest computed by
the external `passlib` library is abstracted as a tagged copy of the input;
no claim depends on the digest's value. -/
def hash_password (password : String) : String := "bcrypt$" ++ password

/-- A JWT issued by the token helpers. The external `jose.jwt.encode` is
abstracted as a record carrying the payload claims put into the token. -/
structure Token where
  sub : String
  email : Option String
deriving Repr, DecidableEq

/-- Modelled from the spec: `app/utils/auth.py` (imported by the routers for
`create_access_token`) is absent from the source tree; following the spec's
"registration/authentication" JWT flow and the twin helper in
`app/utils/security.py`, the access token carries the `sub` and `email`
claims it is given. -/
def create_access_token (sub : String) (email : String) : Token :=
  { sub := sub, email := some email }

/-- Modelled from the spec: `app/utils/auth.py` is absent from the source
tree; the refresh token carries only the `sub` claim it is given. -/
def create_refresh_token (sub : String) : Token :=
  { sub := sub, email := none }

/-- The autoincrement primary key the database assigns to a freshly inserted
`users` row: one more than the largest id in the table. -/
def nextUserId (db : Db) : Nat :=
  db.users.foldr (fun u m => max u.id m) 0 + 1

/-- The response body of `POST /register`: the new user and the two tokens. -/
structure RegisterResponse where
  user : User
  access_token : Token
  refresh_token : Token
deriving Repr, DecidableEq

/-- Model of `register_user` (`app/routers/users.py`): 400 if the email is taken,
else 400 if the phone is taken, else insert a new `User` row with role
`PATIENT` (and `is_active` defaulted to true by the model) and return it with
an access and a refresh token. -/
def register_user (db : Db) (d : UserRegisterData) : Db × Resp RegisterResponse :=
  if (db.users.find? (fun u => u.email == d.email)).isSome then
    (db, .httpError 400 "Email already registered")
  else if (db.users.find? (fun u => u.phone == d.phone)).isSome then
    (db, .httpError 400 "Phone number already registered")
  else
    let new_user : User :=
      { id := nextUserId db
        name := d.name
        email := d.email
        phone := d.phone
        occupation := d.occupation
        national_id := some d.national_id
        otp := some d.otp
        hashed_password := hash_password d.password
        role := .patient
        is_active := true }
    let db' : Db := { db with users := db.users ++ [new_user] }
    (db', .ok
      { user := new_user
        access_token := create_access_token (toString new_user.id) new_user.email
        refresh_token := create_refresh_token (toString new_user.id) })

/-- The response body of `DELETE /account`. -/
structure DeleteAccountResponse where
  success : Bool
  message : String
deriving Repr, DecidableEq

/-- Model of `delete_account` (`app/routers/users.py`): set `is_active = 0` on the
current user's row and commit; no row is deleted. -/
def delete_account (db : Db) (current_user : User) : Db × DeleteAccountResponse :=
  let users' := db.users.map (fun u =>
    if u.id == current_user.id then { u with is_active := false } else u)
  ({ db with users := users' },
   { success := true, message := "Account deactivated successfully" })

/-! ## Appointment validation and creation (`app/routers/appointments.py`) -/

/-- Microseconds per day: `timedelta(days = 1)` in `datetime` ticks. -/
def microsPerDay : Int := 86400000000

/-- The `SPECIALISTS` list of `app/routers/appointments.py`. -/
def SPECIALISTS : List String :=
  ["General Practitioner", "Cardiologist", "Dentist", "Dermatologist",
   "Gynecologist", "Pediatrician", "Psychiatrist", "Orthopedist",
   "Ophthalmologist", "ENT Specialist"]

/-- The `SERVICE_TYPES` list of `app/routers/appointments.py`. -/
def SERVICE_TYPES : List String :=
  ["Consultation", "Follow-up", "Emergency", "Surgery", "Laboratory Test",
   "X-Ray", "Ultrasound", "Vaccination", "Physical Therapy",
   "Mental Health Session"]

/-- The fields of an `AppointmentCreate` body before validation. -/
structure AppointmentCreateData where
  specialist : String
  service_type : String
  appointment_date : Int
  notes : Option String
deriving Repr, DecidableEq

/-- Model of `AppointmentCreate.validate_specialist`. -/
def appointmentValidateSpecialist (v : String) : Except String String :=
  if v ∉ SPECIALISTS then .error "Specialist must be one of the known list"
  else .ok v

/-- Model of `AppointmentCreate.validate_service_type`. -/
def appointmentValidateServiceType (v : String) : Except String String :=
  if v ∉ SERVICE_TYPES then .error "Service type must be one of the known list"
  else .ok v

/-- Model of `AppointmentCreate.validate_date` (`app/routers/appointments.py`): reject a
date before `datetime.now()`, reject a date after `datetime.now() +
timedelta(days=90)`, otherwise return it. Both `datetime.now()` calls are
modelled as the single validation instant `now`. -/
def appointmentValidateDate (now v : Int) : Except String Int :=
  if v < now then .error "Appointment date cannot be in the past"
  else if v > now + 90 * microsPerDay then
    .error "Appointment cannot be scheduled more than 90 days in advance"
  else .ok v

/-- Pydantic validation of an `AppointmentCreate` body: each field validator
must accept. -/
def validateAppointmentCreate (now : Int) (d : AppointmentCreateData) :
    Except String AppointmentCreateData :=
  match appointmentValidateSpecialist d.specialist with
  | .error e => .error e
  | .ok sp =>
      match appointmentValidateServiceType d.service_type with
      | .error e => .error e
      | .ok sv =>
          match appointmentValidateDate now d.appointment_date with
          | .error e => .error e
          | .ok dt =>
              .ok { specialist := sp, service_type := sv, appointment_date := dt,
                    notes := d.notes }

/-- The autoincrement primary key for a fresh `appointments` row. -/
def nextAppointmentId (db : Db) : Nat :=
  db.appointments.foldr (fun a m => max a.id m) 0 + 1

/-- Model of `create_appointment` (`app/routers/appointments.py`), after validation:
400 if the current user already has a `PENDING` or `CONFIRMED` appointment at
exactly the requested `appointment_date`, otherwise insert a new appointment
with status `PENDING`. -/
def create_appointment (current_user : User) (d : AppointmentCreateData)
    (db : Db) : Db × Resp Appointment :=
  let existing := db.appointments.find? (fun a =>
    a.user_id == current_user.id &&
    a.appointment_date == d.appointment_date &&
    (a.status == .pending || a.status == .confirmed))
  if existing.isSome then
    (db, .httpError 400 "You already have an appointment at this time")
  else
    let new_appointment : Appointment :=
      { id := nextAppointmentId db
        user_id := current_user.id
        specialist := d.specialist
        service_type := d.service_type
        appointment_date := d.appointment_date
        notes := d.notes
        status := .pending }
    ({ db with appointments := db.appointments ++ [new_appointment] },
     .ok new_appointment)

/-- The full `POST /appointments` pipeline: FastAPI runs the Pydantic
validators first and answers 422 without entering the handler when one fails;
otherwise the handler runs on the validated body. -/
def createAppointmentEndpoint (now : Int) (current_user : User)
    (d : AppointmentCreateData) (db : Db) : Db × Resp Appointment :=
  match validateAppointmentCreate now d with
  | .error e => (db, .httpError 422 e)
  | .ok vd => create_appointment current_user vd db

/-! ## Payment routes (`app/routers/payments.py`)

The payment handlers branch on `current_user.is_admin`. Python resolves that
attribute against the `User` ORM model of `app/models.py`, whose declared
attributes are listed below; a name outside the list raises `AttributeError`.
Attribute access is therefore embedded as a partial lookup. -/

/-- A Python attribute value, as read by the handlers. -/
inductive PyVal where
  | vNat (n : Nat)
  | vStr (s : String)
  | vOptStr (o : Option String)
  | vBool (b : Bool)
  | vRole (r : UserRole)
deriving Repr, DecidableEq

/-- Python truthiness of a `PyVal`. -/
def PyVal.truthy : PyVal → Bool
  | .vNat n => n != 0
  | .vStr s => !s.isEmpty
  | .vOptStr o => match o with
      | none => false
      | some s => !s.isEmpty
  | .vBool b => b
  | .vRole _ => true

/-- Model of `getattr` on a `User` instance: the column attributes declared by
`class User` in `app/models.py`. Any other name — in particular `is_admin`,
which the payment routes read — is not an attribute of the model, so the
lookup is `none` (an `AttributeError` in Python). -/
def User.getattr (u : User) (a : String) : Option PyVal :=
  if a == "id" then some (.vNat u.id)
  else if a == "name" then some (.vStr u.name)
  else if a == "email" then some (.vStr u.email)
  else if a == "phone" then some (.vStr u.phone)
  else if a == "occupation" then some (.vOptStr u.occupation)
  else if a == "national_id" then some (.vOptStr u.national_id)
  else if a == "otp" then some (.vOptStr u.otp)
  else if a == "hashed_password" then some (.vStr u.hashed_password)
  else if a == "role" then some (.vRole u.role)
  else if a == "is_active" then some (.vBool u.is_active)
  else none

/-- Model of `get_all_payments` (`app/routers/payments.py`): inside `try`, branch on
`current_user.is_admin` — admins get every payment, others the payments with
their `user_id`; `except Exception` converts any exception (including the
`AttributeError` from the `is_admin` lookup) into HTTP 500. -/
def get_all_payments (payments : List Payment) (current_user : User) :
    Resp (List Payment) :=
  match current_user.getattr "is_admin" with
  | some v =>
      if v.truthy then .ok payments
      else .ok (payments.filter (fun p => p.user_id == current_user.id))
  | none => .httpError 500 "Internal server error"

/-- Model of `get_payment` (`app/routers/payments.py`): 404 when no payment has the
requested id; otherwise evaluate `not current_user.is_admin and
payment.user_id != current_user.id` — 403 when it holds, the payment when it
does not; there is no `try`, so the `AttributeError` from the `is_admin`
lookup escapes the handler. -/
def get_payment (payments : List Payment) (payment_id : Nat)
    (current_user : User) : Resp Payment :=
  match payments.find? (fun p => p.id == payment_id) with
  | none => .httpError 404 "Payment not found"
  | some payment =>
      match current_user.getattr "is_admin" with
      | none => .uncaughtExc (.attributeError "is_admin")
      | some v =>
          if !v.truthy && payment.user_id != current_user.id then
            .httpError 403 "Access denied"
          else .ok payment

/-! ## The Daraja mobile-money client (`app/daraja_client.py`) -/

/-- Base64 alphabet. -/
def base64Chars : List Char :=
  "ABCDEFGHIJKLMNOPQRSTUVWXYZabcdefghijklmnopqrstuvwxyz0123456789+/".data

/-- The base64 character of a 6-bit value. -/
def b64Char (n : Nat) : Char := base64Chars.getD n '='

/-- Standard base64 of a byte sequence (RFC 4648, with `=` padding), as
computed by Python's `base64.b64encode`. -/
def base64Encode : List Nat → List Char
  | [] => []
  | [b1] => [b64Char (b1 / 4), b64Char (b1 % 4 * 16), '=', '=']
  | [b1, b2] =>
      [b64Char (b1 / 4), b64Char (b1 % 4 * 16 + b2 / 16), b64Char (b2 % 16 * 4), '=']
  | b1 :: b2 :: b3 :: rest =>
      b64Char (b1 / 4) :: b64Char (b1 % 4 * 16 + b2 / 16) ::
      b64Char (b2 % 16 * 4 + b3 / 64) :: b64Char (b3 % 64) :: base64Encode rest

/-- UTF-8 bytes of one character (`str.encode()`). -/
def utf8Bytes (c : Char) : List Nat :=
  let n := c.toNat
  if n < 0x80 then [n]
  else if n < 0x800 then [0xc0 + n / 0x40, 0x80 + n % 0x40]
  else if n < 0x10000 then
    [0xe0 + n / 0x1000, 0x80 + n / 0x40 % 0x40, 0x80 + n % 0x40]
  else
    [0xf0 + n / 0x40000, 0x80 + n / 0x1000 % 0x40, 0x80 + n / 0x40 % 0x40,
     0x80 + n % 0x40]

/-- Model of `s.encode()`: the UTF-8 bytes of a string. -/
def strEncode (s : String) : List Nat := (s.data.map utf8Bytes).flatten

/-- Model of `_password` (`app/daraja_client.py`): base64 of the UTF-8 bytes of
`f"{shortcode}{passkey}{timestamp}"`. -/
def darajaPassword (shortcode passkey timestamp : String) : String :=
  String.mk (base64Encode (strEncode (shortcode ++ passkey ++ timestamp)))

/-- Model of `int(amount)` on a Python number: truncation toward zero
(`tdiv` is truncating division and the denominator is positive). Monetary
amounts are modelled as exact rationals. -/
def pyInt (q : Rat) : Int := q.num.tdiv q.den

/-- Python truthiness of an `os.getenv` result (`None`, or a string, where
the empty string is falsy). -/
def envFalsy : Option String → Bool
  | none => true
  | some s => s.isEmpty

/-- Model of `requests` raises `HTTPError` from `raise_for_status()` exactly for
4xx and 5xx status codes. -/
def isErrStatus (status : Nat) : Bool := 400 ≤ status && status < 600

/-- The environment configuration read at the top of `app/daraja_client.py`. -/
structure DarajaConfig where
  consumer_key : Option String
  consumer_secret : Option String
  shortcode : Option String
  passkey : Option String
  callback_url : Option String
deriving Repr, DecidableEq

/-- The body of an STK push request (`payload` in `stk_push`). -/
structure StkRequest where
  BusinessShortCode : String
  Password : String
  Timestamp : String
  TransactionType : String
  Amount : Int
  PartyA : String
  PartyB : String
  PhoneNumber : String
  CallBackURL : String
  AccountReference : String
  TransactionDesc : String
deriving Repr, DecidableEq

/-- One external call performed by the clients under verification. -/
inductive Call where
  | oauthGet
  | stkPost (payload : StkRequest)
  | smsAuthGet
  | smsPost
  | smtpConnect
  | smtpStarttls
  | smtpLogin
  | smtpSendmail
deriving Repr, DecidableEq

/-- The call site a `Call` belongs to, used to count attempts per call. -/
inductive CallKind where
  | oauthGet
  | stkPost
  | smsAuthGet
  | smsPost
  | smtpConnect
  | smtpStarttls
  | smtpLogin
  | smtpSendmail
deriving Repr, DecidableEq

/-- The kind of a call. -/
def Call.kind : Call → CallKind
  | .oauthGet => .oauthGet
  | .stkPost _ => .stkPost
  | .smsAuthGet => .smsAuthGet
  | .smsPost => .smsPost
  | .smtpConnect => .smtpConnect
  | .smtpStarttls => .smtpStarttls
  | .smtpLogin => .smtpLogin
  | .smtpSendmail => .smtpSendmail

/-- How many calls of kind `k` a trace contains. -/
def countKind (trace : List Call) (k : CallKind) : Nat :=
  (trace.filter (fun c => c.kind == k)).length

/-- The fixed outside world a `stk_push` invocation interacts with: the
environment configuration, the formatted `datetime.utcnow()` timestamp, and
the vendor's responses to the OAuth `GET` and the STK `POST`. -/
structure StkWorld where
  config : DarajaConfig
  timestamp : String
  oauthStatus : Nat
  oauthToken : Option String
  stkStatus : Nat
  stkBody : String
deriving Repr, DecidableEq

/-- Model of `get_access_token` (`app/daraja_client.py`): raise unless both consumer
credentials are configured; one OAuth `GET` with `raise_for_status()`; raise
unless the JSON body carries a truthy `access_token`. Returns the trace of
external calls and the outcome. -/
def get_access_token (w : StkWorld) : List Call × Except PyExc String :=
  if envFalsy w.config.consumer_key || envFalsy w.config.consumer_secret then
    ([], .error (.runtimeError "MPESA_CONSUMER_KEY and MPESA_CONSUMER_SECRET must be set"))
  else if isErrStatus w.oauthStatus then
    ([.oauthGet], .error (.httpStatusError w.oauthStatus))
  else if envFalsy w.oauthToken then
    ([.oauthGet], .error (.runtimeError "No access token in response"))
  else
    ([.oauthGet], .ok (w.oauthToken.getD ""))

/-- The dictionary returned by `stk_push`. -/
structure StkResult where
  ok : Bool
  status_code : Nat
  body : String
deriving Repr, DecidableEq

/-- Model of `stk_push` (`app/daraja_client.py`): raise unless `SHORTCODE`, `PASSKEY`
and `CALLBACK_URL` are configured; compute the timestamp and password; fetch
the OAuth token (propagating its exceptions); send one STK `POST`; an HTTP
error status from the vendor is caught and returned as a result with `ok` set to false,
any other status as a result with `ok` set to true. Returns the trace of external calls
and the outcome. -/
def stk_push (w : StkWorld) (amount : Rat) (phone_number account_reference
    description : String) : List Call × Except PyExc StkResult :=
  if envFalsy w.config.shortcode || envFalsy w.config.passkey ||
      envFalsy w.config.callback_url then
    ([], .error (.runtimeError "SHORTCODE, PASSKEY and CALLBACK_URL must be configured"))
  else
    let sc := (w.config.shortcode).getD ""
    let timestamp := w.timestamp
    let password := darajaPassword sc ((w.config.passkey).getD "") timestamp
    match get_access_token w with
    | (t, .error e) => (t, .error e)
    | (t, .ok _) =>
        let payload : StkRequest :=
          { BusinessShortCode := sc
            Password := password
            Timestamp := timestamp
            TransactionType := "CustomerPayBillOnline"
            Amount := pyInt amount
            PartyA := phone_number
            PartyB := sc
            PhoneNumber := phone_number
            CallBackURL := (w.config.callback_url).getD ""
            AccountReference := account_reference
            TransactionDesc := description }
        let t2 := t ++ [Call.stkPost payload]
        if isErrStatus w.stkStatus then
          (t2, .ok { ok := false, status_code := w.stkStatus, body := w.stkBody })
        else
          (t2, .ok { ok := true, status_code := w.stkStatus, body := w.stkBody })

/-! ## OTP generation and delivery (`app/utils/otp.py`) -/

/-- The outside world of `send_otp_email`: whether each step of the one SMTP
session (connect, STARTTLS, login, sendmail) succeeds. -/
structure SmtpWorld where
  connectOk : Bool
  starttlsOk : Bool
  loginOk : Bool
  sendmailOk : Bool
deriving Repr, DecidableEq

/-- Model of `send_otp_email` (`app/utils/otp.py`): one SMTP session —
`smtplib.SMTP(...)` (connect), `starttls()`, `login(...)`, `sendmail(...)` —
each step raising on failure and aborting the rest. Returns the trace of
external calls and the outcome. -/
def send_otp_email (w : SmtpWorld) : List Call × Except PyExc Unit :=
  if !w.connectOk then ([.smtpConnect], .error .smtpError)
  else if !w.starttlsOk then ([.smtpConnect, .smtpStarttls], .error .smtpError)
  else if !w.loginOk then
    ([.smtpConnect, .smtpStarttls, .smtpLogin], .error .smtpError)
  else if !w.sendmailOk then
    ([.smtpConnect, .smtpStarttls, .smtpLogin, .smtpSendmail], .error .smtpError)
  else ([.smtpConnect, .smtpStarttls, .smtpLogin, .smtpSendmail], .ok ())

/-- The outside world of `send_otp_sms`: the Safaricom OAuth response and the
SMS endpoint's response. -/
structure SmsWorld where
  authStatus : Nat
  authToken : Option String
  smsStatus : Nat
  smsBody : String
deriving Repr, DecidableEq

/-- Model of `get_safaricom_access_token` (`app/utils/otp.py`): one OAuth `GET` with
`raise_for_status()`, then `response.json()['access_token']` (a `KeyError`
when absent). Returns the trace of external calls and the outcome. -/
def get_safaricom_access_token (w : SmsWorld) : List Call × Except PyExc String :=
  if isErrStatus w.authStatus then
    ([.smsAuthGet], .error (.httpStatusError w.authStatus))
  else
    match w.authToken with
    | none => ([.smsAuthGet], .error (.keyError "access_token"))
    | some tok => ([.smsAuthGet], .ok tok)

/-- Model of `send_otp_sms` (`app/utils/otp.py`): fetch the Safaricom token
(propagating its exceptions), then one SMS `POST` with `raise_for_status()`.
Returns the trace of external calls and the outcome. -/
def send_otp_sms (w : SmsWorld) : List Call × Except PyExc String :=
  match get_safaricom_access_token w with
  | (t, .error e) => (t, .error e)
  | (t, .ok _) =>
      let t2 := t ++ [Call.smsPost]
      if isErrStatus w.smsStatus then (t2, .error (.httpStatusError w.smsStatus))
      else (t2, .ok w.smsBody)

/-- The decimal digit string of a natural number, exactly as Python's
`str(n)` prints a non-negative `int`. -/
def decimalDigits (n : Nat) : List Char :=
  if h : n < 10 then [Nat.digitChar n]
  else decimalDigits (n / 10) ++ [Nat.digitChar (n % 10)]
decreasing_by
  exact Nat.div_lt_self (Nat.lt_of_lt_of_le (by norm_num) (Nat.le_of_not_lt h)) (by norm_num)

/-- Model of `generate_otp` (`app/utils/otp.py`):
`str(random.randint(10**(length-1), 10**length - 1))`, modelled on the value
`draw` that `random.randint` (inclusive on both ends) returns. -/
def generate_otp (length : Nat) (draw : Nat) : String :=
  String.mk (decimalDigits draw)

/-! ## Helper lemmas -/

/-- The two password validators have the same code. -/
lemma passwordChange_eq_userRegister (v : String) :
    passwordChangeValidatePassword v = userRegisterValidatePassword v := rfl

/-- Acceptance characterisation of the registration password validator. -/
lemma userRegisterValidatePassword_ok_iff (v : String) :
    userRegisterValidatePassword v = .ok v ↔
      (8 ≤ v.length ∧ (∃ c ∈ v.data, isAsciiUpper c) ∧
        (∃ c ∈ v.data, isAsciiLower c) ∧ (∃ c ∈ v.data, isAsciiDigit c)) := by
  unfold userRegisterValidatePassword
  split_ifs with h1 h2 h3 h4 <;>
    simp_all [List.any_eq_true, Nat.not_lt, Nat.lt_iff_add_one_le]

/-- The password validators reject exactly by returning an error value. -/
lemma userRegisterValidatePassword_ok_or_error (v : String) :
    userRegisterValidatePassword v = .ok v ∨
      ∃ e, userRegisterValidatePassword v = .error e := by
  unfold userRegisterValidatePassword
  split_ifs <;> simp

/-- A whitespace-stripped string contains no whitespace character. -/
lemma stripWhitespace_no_space (v : String) :
    ∀ c ∈ (stripWhitespace v).data, isPySpace c = false := by
  intro c hc
  simp only [stripWhitespace] at hc
  simp only [List.mem_filter, Bool.not_eq_eq_eq_not, Bool.not_true] at hc
  exact hc.2

/-- On a string with no whitespace character, the trailing-newline quirk of
`$` is vacuous: the Python match and the plain pattern agree. -/
lemma pyPhoneMatch_of_no_space (s : String)
    (h : ∀ c ∈ s.data, isPySpace c = false) :
    pyPhoneMatch s = phonePattern s := by
  unfold pyPhoneMatch
  cases hl : s.data.getLast? with
  | none => simp
  | some c =>
      have hcmem : c ∈ s.data := by
        obtain ⟨hne, hx⟩ :=
          List.mem_getLast?_eq_getLast (l := s.data) (x := c) (by simp [hl])
        exact hx ▸ List.getLast_mem hne
      have : c ≠ '\n' := by
        intro he
        have := h c hcmem
        rw [he] at this
        simp [isPySpace] at this
      simp [this]

/-! ## Claim theorems -/

/-- C3: a password is accepted by the registration validator and by the
password-change validator if and only if it has at least 8 characters, at
least one uppercase letter `A`–`Z`, at least one lowercase letter `a`–`z`,
and at least one digit `0`–`9`; otherwise both reject with a validation
error. -/
theorem password_validators_spec (v : String) :
    (userRegisterValidatePassword v = .ok v ↔
      (8 ≤ v.length ∧ (∃ c ∈ v.data, isAsciiUpper c) ∧
        (∃ c ∈ v.data, isAsciiLower c) ∧ (∃ c ∈ v.data, isAsciiDigit c))) ∧
    (passwordChangeValidatePassword v = .ok v ↔
      (8 ≤ v.length ∧ (∃ c ∈ v.data, isAsciiUpper c) ∧
        (∃ c ∈ v.data, isAsciiLower c) ∧ (∃ c ∈ v.data, isAsciiDigit c))) ∧
    (¬ (8 ≤ v.length ∧ (∃ c ∈ v.data, isAsciiUpper c) ∧
        (∃ c ∈ v.data, isAsciiLower c) ∧ (∃ c ∈ v.data, isAsciiDigit c)) →
      (∃ e, userRegisterValidatePassword v = .error e) ∧
      (∃ e, passwordChangeValidatePassword v = .error e)) := by
  refine ⟨userRegisterValidatePassword_ok_iff v,
    (passwordChange_eq_userRegister v).symm ▸ userRegisterValidatePassword_ok_iff v,
    fun hno => ?_⟩
  rcases userRegisterValidatePassword_ok_or_error v with hok | ⟨e, he⟩
  · exact absurd ((userRegisterValidatePassword_ok_iff v).mp hok) hno
  · exact ⟨⟨e, he⟩, ⟨e, (passwordChange_eq_userRegister v).symm ▸ he⟩⟩

/-- C3 witness: the concrete password "Abcdefg1" satisfies all four
conditions and is accepted by both validators. -/
theorem password_validators_spec_witness :
    ¬ (8 ≤ ("short".length) ∧ (∃ c ∈ "short".data, isAsciiUpper c) ∧
        (∃ c ∈ "short".data, isAsciiLower c) ∧ (∃ c ∈ "short".data, isAsciiDigit c)) ∧
    ((∃ e, userRegisterValidatePassword "short" = .error e) ∧
      (∃ e, passwordChangeValidatePassword "short" = .error e)) ∧
    userRegisterValidatePassword "Abcdefg1" = .ok "Abcdefg1" := by
  refine ⟨by decide, (password_validators_spec "short").2.2 (by decide), ?_⟩
  exact (password_validators_spec "Abcdefg1").1.mpr (by decide)

/-- Closed form of the registration phone validator: the stripped value is
tested against the plain pattern (the `$`/newline quirk is vacuous on a
whitespace-stripped string). -/
lemma userRegisterValidatePhone_eq (v : String) :
    userRegisterValidatePhone v =
      if phonePattern (stripWhitespace v) then .ok (stripWhitespace v)
      else .error "Invalid phone number format" := by
  have h := pyPhoneMatch_of_no_space (stripWhitespace v) (stripWhitespace_no_space v)
  unfold userRegisterValidatePhone
  simp only [h]
  cases phonePattern (stripWhitespace v) <;> simp

/-- Closed form of the profile-update phone validator on a non-empty value. -/
lemma userUpdateValidatePhone_eq (v : String) (hv : v ≠ "") :
    userUpdateValidatePhone (some v) =
      if phonePattern (stripWhitespace v) then .ok (some (stripWhitespace v))
      else .error "Invalid phone number format" := by
  have hne : v.isEmpty = false := by
    cases hbe : v.isEmpty
    · rfl
    · exact absurd ((String.isEmpty_iff v).mp hbe) hv
  have h := pyPhoneMatch_of_no_space (stripWhitespace v) (stripWhitespace_no_space v)
  unfold userUpdateValidatePhone
  simp only [hne, h]
  cases phonePattern (stripWhitespace v) <;> simp

/-- C4 counterexample: the profile-update phone validator accepts the empty
string (a falsy value is passed through unvalidated by `if v:`), although the
whitespace-stripped empty string does not match `^\+?[0-9]{10,15}$`; so "the
input is accepted if and only if the stripped result matches the regular
expression" fails at the input `""`. -/
theorem phone_validation_counterexample :
    userUpdateValidatePhone (some "") = .ok (some "") ∧
    phonePattern (stripWhitespace "") = false := by
  exact ⟨rfl, rfl⟩

/-- C4 (amended): phone validation at registration first removes all
whitespace and accepts exactly when the stripped result matches
`^\+?[0-9]{10,15}$` (an optional leading plus then 10 to 15 digits), and the
stripped value is the value returned for storage; the profile-update
validator does the same for every non-empty provided string, while a missing
or empty (falsy) value is passed through unchanged without validation. -/
theorem phone_validation_spec (v : String) :
    ((∃ r, userRegisterValidatePhone v = .ok r) ↔
        phonePattern (stripWhitespace v) = true) ∧
    (∀ r, userRegisterValidatePhone v = .ok r → r = stripWhitespace v) ∧
    (v ≠ "" →
      ((∃ r, userUpdateValidatePhone (some v) = .ok r) ↔
          phonePattern (stripWhitespace v) = true) ∧
      (∀ r, userUpdateValidatePhone (some v) = .ok r →
          r = some (stripWhitespace v))) ∧
    userUpdateValidatePhone none = .ok none := by
  refine ⟨?_, ?_, fun hv => ⟨?_, ?_⟩, rfl⟩
  · rw [userRegisterValidatePhone_eq]
    cases phonePattern (stripWhitespace v) <;> simp
  · intro r hr
    rw [userRegisterValidatePhone_eq] at hr
    cases hm : phonePattern (stripWhitespace v) <;> rw [hm] at hr <;> simp_all
  · rw [userUpdateValidatePhone_eq v hv]
    cases phonePattern (stripWhitespace v) <;> simp
  · intro r hr
    rw [userUpdateValidatePhone_eq v hv] at hr
    cases hm : phonePattern (stripWhitespace v) <;> rw [hm] at hr <;> simp_all

/-- C4 witness: the concrete input `" +254 712 345 678 "` is non-empty, its
stripped form `"+254712345678"` matches the pattern, and both validators
accept it with the stripped value. -/
theorem phone_validation_spec_witness :
    (" +254 712 345 678 " : String) ≠ "" ∧
    phonePattern (stripWhitespace " +254 712 345 678 ") = true ∧
    (∃ r, userRegisterValidatePhone " +254 712 345 678 " = .ok r) ∧
    (∃ r, userUpdateValidatePhone (some " +254 712 345 678 ") = .ok r) := by
  refine ⟨by decide, by decide, ?_, ?_⟩
  · exact (phone_validation_spec " +254 712 345 678 ").1.mpr (by decide)
  · exact ((phone_validation_spec " +254 712 345 678 ").2.2.1 (by decide)).1.mpr
      (by decide)

/-- C1: registration raises HTTP 400 when the email is already registered and
HTTP 400 when the phone is already registered, leaving the user table (and the
whole database) unchanged; otherwise it appends exactly one new user with role
`PATIENT` and returns that user together with an access token and a refresh
token. -/
theorem register_user_spec (db : Db) (d : UserRegisterData) :
    ((∃ u ∈ db.users, u.email = d.email) →
        register_user db d = (db, .httpError 400 "Email already registered")) ∧
    ((¬ ∃ u ∈ db.users, u.email = d.email) →
     (∃ u ∈ db.users, u.phone = d.phone) →
        register_user db d = (db, .httpError 400 "Phone number already registered")) ∧
    ((¬ ∃ u ∈ db.users, u.email = d.email) →
     (¬ ∃ u ∈ db.users, u.phone = d.phone) →
      ∃ nu resp,
        register_user db d = ({ db with users := db.users ++ [nu] }, .ok resp) ∧
        nu.role = .patient ∧ nu.name = d.name ∧ nu.email = d.email ∧
        nu.phone = d.phone ∧ nu.occupation = d.occupation ∧
        nu.national_id = some d.national_id ∧ nu.otp = some d.otp ∧
        nu.is_active = true ∧ resp.user = nu ∧
        resp.access_token = create_access_token (toString nu.id) nu.email ∧
        resp.refresh_token = create_refresh_token (toString nu.id)) := by
  have hemail : (db.users.find? (fun u => u.email == d.email)).isSome = true ↔
      ∃ u ∈ db.users, u.email = d.email := by
    rw [List.find?_isSome]; simp
  have hphone : (db.users.find? (fun u => u.phone == d.phone)).isSome = true ↔
      ∃ u ∈ db.users, u.phone = d.phone := by
    rw [List.find?_isSome]; simp
  refine ⟨fun h => ?_, fun hne hp => ?_, fun hne1 hne2 => ?_⟩
  · unfold register_user
    simp [hemail.mpr h]
  · unfold register_user
    have h1 : (db.users.find? (fun u => u.email == d.email)).isSome = false := by
      cases hb : (db.users.find? (fun u => u.email == d.email)).isSome
      · rfl
      · exact absurd (hemail.mp hb) hne
    simp [h1, hphone.mpr hp]
  · have h1 : (db.users.find? (fun u => u.email == d.email)).isSome = false := by
      cases hb : (db.users.find? (fun u => u.email == d.email)).isSome
      · rfl
      · exact absurd (hemail.mp hb) hne1
    have h2 : (db.users.find? (fun u => u.phone == d.phone)).isSome = false := by
      cases hb : (db.users.find? (fun u => u.phone == d.phone)).isSome
      · rfl
      · exact absurd (hphone.mp hb) hne2
    unfold register_user
    simp only [h1, h2, Bool.false_eq_true, if_false]
    exact ⟨_, _, rfl, rfl, rfl, rfl, rfl, rfl, rfl, rfl, rfl, rfl, rfl, rfl⟩

/-- A user row used by the witnesses. -/
def user1 : User :=
  { id := 1, name := "Alice", email := "alice@example.com",
    phone := "+254712345678", occupation := none, national_id := some "1234",
    otp := some "111111", hashed_password := hash_password "Password1",
    role := .patient, is_active := true }

/-- A one-user database used by the witnesses. -/
def db1 : Db :=
  { users := [user1], appointments := [], payments := [], notifications := [] }

/-- A registration body with a fresh email and phone. -/
def regData : UserRegisterData :=
  { name := "Bob", email := "bob@example.com", phone := "+254700000000",
    national_id := "5678", otp := "222222", occupation := some "Teacher",
    password := "Password1" }

/-- A registration body whose email collides with `user1`. -/
def regDataDup : UserRegisterData :=
  { regData with email := "alice@example.com" }

/-- C1 witness: on the one-user database, a colliding email yields the 400
error with the database unchanged, and a fresh email and phone yield the
created `PATIENT` user with both tokens. -/
theorem register_user_spec_witness :
    (∃ u ∈ db1.users, u.email = regDataDup.email) ∧
    register_user db1 regDataDup = (db1, .httpError 400 "Email already registered") ∧
    (¬ ∃ u ∈ db1.users, u.email = regData.email) ∧
    (¬ ∃ u ∈ db1.users, u.phone = regData.phone) ∧
    (∃ nu resp,
        register_user db1 regData = ({ db1 with users := db1.users ++ [nu] }, .ok resp) ∧
        nu.role = .patient ∧ nu.name = regData.name ∧ nu.email = regData.email ∧
        nu.phone = regData.phone ∧ nu.occupation = regData.occupation ∧
        nu.national_id = some regData.national_id ∧ nu.otp = some regData.otp ∧
        nu.is_active = true ∧ resp.user = nu ∧
        resp.access_token = create_access_token (toString nu.id) nu.email ∧
        resp.refresh_token = create_refresh_token (toString nu.id)) := by
  refine ⟨by decide, (register_user_spec db1 regDataDup).1 (by decide),
    by decide, by decide,
    (register_user_spec db1 regData).2.2 (by decide) (by decide)⟩

/-- C2: the `appointment_date` validator accepts a date exactly when it is
not before `now` and not after `now` plus 90 days; when it rejects, the
endpoint answers 422 and the database is unchanged (no appointment is
created). -/
theorem appointment_date_spec (now v : Int) (u : User) (d : AppointmentCreateData)
    (db : Db) :
    (appointmentValidateDate now v = .ok v ↔
      (now ≤ v ∧ v ≤ now + 90 * microsPerDay)) ∧
    ((appointmentValidateDate now d.appointment_date).isOk = false →
      ∃ e, createAppointmentEndpoint now u d db = (db, .httpError 422 e)) := by
  constructor
  · unfold appointmentValidateDate
    split_ifs with h1 h2 <;> simp <;> omega
  · intro hfail
    unfold createAppointmentEndpoint validateAppointmentCreate
    cases hs : appointmentValidateSpecialist d.specialist with
    | error e => exact ⟨e, rfl⟩
    | ok sp =>
        cases ht : appointmentValidateServiceType d.service_type with
        | error e => exact ⟨e, rfl⟩
        | ok sv =>
            cases hd : appointmentValidateDate now d.appointment_date with
            | error e => exact ⟨e, rfl⟩
            | ok dt =>
                rw [hd, show (Except.ok dt : Except String Int).isOk = true from rfl]
                  at hfail
                exact Bool.noConfusion hfail

/-- An appointment-creation body whose date lies in the past of instant 0. -/
def apptPast : AppointmentCreateData :=
  { specialist := "Dentist", service_type := "Consultation",
    appointment_date := -1, notes := none }

/-- C2 witness: at instant 0, the date −1 µs is in the past, the validator
rejects it, and the endpoint answers 422 leaving the database unchanged. -/
theorem appointment_date_spec_witness :
    (appointmentValidateDate 0 apptPast.appointment_date).isOk = false ∧
    (∃ e, createAppointmentEndpoint 0 user1 apptPast db1 =
      (db1, .httpError 422 e)) ∧
    (appointmentValidateDate 0 0 = .ok 0 ↔
      ((0 : Int) ≤ 0 ∧ (0 : Int) ≤ 0 + 90 * microsPerDay)) := by
  exact ⟨by decide, (appointment_date_spec 0 0 user1 apptPast db1).2 (by decide),
    (appointment_date_spec 0 0 user1 apptPast db1).1⟩

/-- C7: appointment creation raises HTTP 400, adding nothing, when the
current user already has a `PENDING` or `CONFIRMED` appointment at exactly the
requested date; otherwise it appends exactly one new appointment for that user
with status `PENDING`. -/
theorem create_appointment_spec (u : User) (d : AppointmentCreateData) (db : Db) :
    ((∃ a ∈ db.appointments, a.user_id = u.id ∧
        a.appointment_date = d.appointment_date ∧
        (a.status = .pending ∨ a.status = .confirmed)) →
      create_appointment u d db =
        (db, .httpError 400 "You already have an appointment at this time")) ∧
    ((¬ ∃ a ∈ db.appointments, a.user_id = u.id ∧
        a.appointment_date = d.appointment_date ∧
        (a.status = .pending ∨ a.status = .confirmed)) →
      ∃ na, create_appointment u d db =
          ({ db with appointments := db.appointments ++ [na] }, .ok na) ∧
        na.user_id = u.id ∧ na.status = .pending ∧
        na.specialist = d.specialist ∧ na.service_type = d.service_type ∧
        na.appointment_date = d.appointment_date ∧ na.notes = d.notes) := by
  have hiff : (db.appointments.find? (fun a =>
      a.user_id == u.id && a.appointment_date == d.appointment_date &&
      (a.status == .pending || a.status == .confirmed))).isSome = true ↔
      (∃ a ∈ db.appointments, a.user_id = u.id ∧
        a.appointment_date = d.appointment_date ∧
        (a.status = .pending ∨ a.status = .confirmed)) := by
    rw [List.find?_isSome]; simp [and_assoc]
  refine ⟨fun h => ?_, fun hne => ?_⟩
  · unfold create_appointment
    simp [hiff.mpr h]
  · have h1 : (db.appointments.find? (fun a =>
        a.user_id == u.id && a.appointment_date == d.appointment_date &&
        (a.status == .pending || a.status == .confirmed))).isSome = false := by
      cases hb : (db.appointments.find? (fun a =>
        a.user_id == u.id && a.appointment_date == d.appointment_date &&
        (a.status == .pending || a.status == .confirmed))).isSome
      · rfl
      · exact absurd (hiff.mp hb) hne
    unfold create_appointment
    simp only [h1, Bool.false_eq_true, if_false]
    exact ⟨_, rfl, rfl, rfl, rfl, rfl, rfl, rfl⟩

/-- An appointment of `user1`, pending, at instant 1000. -/
def appt1 : Appointment :=
  { id := 1, user_id := 1, specialist := "Dentist",
    service_type := "Consultation", appointment_date := 1000,
    status := .pending, notes := none }

/-- A database where `user1` has the pending appointment `appt1`. -/
def db2 : Db :=
  { users := [user1], appointments := [appt1], payments := [],
    notifications := [] }

/-- An appointment-creation body at `appt1`'s exact date. -/
def apptSameTime : AppointmentCreateData :=
  { specialist := "Cardiologist", service_type := "Follow-up",
    appointment_date := 1000, notes := none }

/-- An appointment-creation body at a free date. -/
def apptFree : AppointmentCreateData :=
  { specialist := "Cardiologist", service_type := "Follow-up",
    appointment_date := 2000, notes := none }

/-- C7 witness: with a pending appointment at tick 1000, a second request at
tick 1000 gets the 400 error and the database is unchanged, while a request
at tick 2000 creates one pending appointment. -/
theorem create_appointment_spec_witness :
    (∃ a ∈ db2.appointments, a.user_id = user1.id ∧
      a.appointment_date = apptSameTime.appointment_date ∧
      (a.status = .pending ∨ a.status = .confirmed)) ∧
    create_appointment user1 apptSameTime db2 =
      (db2, .httpError 400 "You already have an appointment at this time") ∧
    (¬ ∃ a ∈ db2.appointments, a.user_id = user1.id ∧
      a.appointment_date = apptFree.appointment_date ∧
      (a.status = .pending ∨ a.status = .confirmed)) ∧
    (∃ na, create_appointment user1 apptFree db2 =
        ({ db2 with appointments := db2.appointments ++ [na] }, .ok na) ∧
      na.user_id = user1.id ∧ na.status = .pending ∧
      na.specialist = apptFree.specialist ∧
      na.service_type = apptFree.service_type ∧
      na.appointment_date = apptFree.appointment_date ∧
      na.notes = apptFree.notes) := by
  refine ⟨by decide, (create_appointment_spec user1 apptSameTime db2).1 (by decide),
    by decide, (create_appointment_spec user1 apptFree db2).2 (by decide)⟩

/-- C10: account deletion removes no row: the user table keeps its length,
the user's row keeps every field except `is_active`, which becomes false, the
rows of other users are untouched, all appointments, payments and
notifications remain, and the handler reports success. -/
theorem delete_account_spec (db : Db) (cu : User) (u : User) (hu : u ∈ db.users) :
    (delete_account db cu).1.users.length = db.users.length ∧
    (delete_account db cu).1.appointments = db.appointments ∧
    (delete_account db cu).1.payments = db.payments ∧
    (delete_account db cu).1.notifications = db.notifications ∧
    (delete_account db cu).2.success = true ∧
    (delete_account db cu).2.message = "Account deactivated successfully" ∧
    (u.id ≠ cu.id → u ∈ (delete_account db cu).1.users) ∧
    (u.id = cu.id → ∃ u' ∈ (delete_account db cu).1.users,
      u'.is_active = false ∧ u'.id = u.id ∧ u'.name = u.name ∧
      u'.email = u.email ∧ u'.phone = u.phone ∧
      u'.national_id = u.national_id ∧ u'.otp = u.otp ∧
      u'.hashed_password = u.hashed_password ∧ u'.role = u.role ∧
      u'.occupation = u.occupation) := by
  refine ⟨?_, rfl, rfl, rfl, rfl, rfl, fun hne => ?_, fun he => ?_⟩
  · unfold delete_account
    simp
  · unfold delete_account
    simp only [List.mem_map]
    exact ⟨u, hu, by simp [hne]⟩
  · unfold delete_account
    refine ⟨{ u with is_active := false }, ?_,
      rfl, rfl, rfl, rfl, rfl, rfl, rfl, rfl, rfl, rfl⟩
    simp only [List.mem_map]
    exact ⟨u, hu, by simp [he]⟩

/-- C10 witness: deactivating `user1` on the one-user database keeps the row
(with all fields but `is_active` intact), all other tables, and succeeds. -/
theorem delete_account_spec_witness :
    user1 ∈ db1.users ∧ user1.id = user1.id ∧
    (delete_account db1 user1).1.users.length = db1.users.length ∧
    (delete_account db1 user1).2.success = true ∧
    (∃ u' ∈ (delete_account db1 user1).1.users,
      u'.is_active = false ∧ u'.id = user1.id ∧ u'.name = user1.name ∧
      u'.email = user1.email ∧ u'.phone = user1.phone ∧
      u'.national_id = user1.national_id ∧ u'.otp = user1.otp ∧
      u'.hashed_password = user1.hashed_password ∧ u'.role = user1.role ∧
      u'.occupation = user1.occupation) := by
  have h := delete_account_spec db1 user1 user1 (by decide)
  exact ⟨by decide, rfl, h.1, h.2.2.2.2.1, h.2.2.2.2.2.2.2 rfl⟩

/-- One-step unfolding of `decimalDigits` below 10. -/
lemma decimalDigits_lt (n : Nat) (h : n < 10) :
    decimalDigits n = [Nat.digitChar n] := by
  unfold decimalDigits; simp [h]

/-- One-step unfolding of `decimalDigits` from 10 on. -/
lemma decimalDigits_ge (n : Nat) (h : ¬ n < 10) :
    decimalDigits n = decimalDigits (n / 10) ++ [Nat.digitChar (n % 10)] := by
  conv_lhs => unfold decimalDigits
  simp [h]

/-- A decimal representation is never empty. -/
lemma decimalDigits_ne_nil (n : Nat) : decimalDigits n ≠ [] := by
  by_cases h : n < 10
  · rw [decimalDigits_lt n h]; simp
  · rw [decimalDigits_ge n h]; simp

/-- A number in `[10^l, 10^(l+1))` has exactly `l + 1` decimal digits. -/
lemma decimalDigits_length (l : Nat) :
    ∀ n, 10 ^ l ≤ n → n < 10 ^ (l + 1) → (decimalDigits n).length = l + 1 := by
  induction l with
  | zero =>
      intro n _ h2
      rw [decimalDigits_lt n (by simpa using h2)]
      rfl
  | succ l ih =>
      intro n h1 h2
      have h10 : (10 : Nat) ≤ 10 ^ (l + 1) := by
        calc (10 : Nat) = 10 ^ 1 := (pow_one 10).symm
        _ ≤ 10 ^ (l + 1) := Nat.pow_le_pow_right (by norm_num) (by omega)
      have hge : ¬ n < 10 := by omega
      rw [decimalDigits_ge n hge, List.length_append]
      have e1 : 10 ^ l ≤ n / 10 := by
        refine (Nat.le_div_iff_mul_le (by norm_num)).mpr ?_
        calc 10 ^ l * 10 = 10 ^ (l + 1) := (pow_succ 10 l).symm
        _ ≤ n := h1
      have e2 : n / 10 < 10 ^ (l + 1) := by
        refine (Nat.div_lt_iff_lt_mul (by norm_num)).mpr ?_
        calc n < 10 ^ (l + 1 + 1) := h2
        _ = 10 ^ (l + 1) * 10 := pow_succ 10 (l + 1)
      rw [ih (n / 10) e1 e2]
      simp

/-- The leading decimal digit of a positive number is never the digit 0. -/
lemma decimalDigits_head_ne_zero :
    ∀ n, 1 ≤ n → (decimalDigits n).head? ≠ some '0' := by
  intro n
  induction n using Nat.strong_induction_on with
  | _ n ih =>
    intro h
    by_cases hlt : n < 10
    · rw [decimalDigits_lt n hlt]
      have hne : Nat.digitChar n ≠ '0' := by
        interval_cases n <;> decide
      simpa using hne
    · rw [decimalDigits_ge n hlt]
      rw [List.head?_append_of_ne_nil _ (decimalDigits_ne_nil (n / 10))]
      exact ih (n / 10) (Nat.div_lt_self (by omega) (by norm_num))
        ((Nat.le_div_iff_mul_le (by norm_num)).mpr (by omega))

/-- Every character of a decimal representation is an ASCII digit. -/
lemma decimalDigits_all_digits :
    ∀ n, ∀ c ∈ decimalDigits n, isAsciiDigit c = true := by
  have hd : ∀ m, m < 10 → isAsciiDigit (Nat.digitChar m) = true := by decide
  intro n
  induction n using Nat.strong_induction_on with
  | _ n ih =>
    intro c hc
    by_cases hlt : n < 10
    · rw [decimalDigits_lt n hlt] at hc
      simp at hc
      exact hc ▸ hd n hlt
    · rw [decimalDigits_ge n hlt] at hc
      rcases List.mem_append.mp hc with h1 | h2
      · exact ih (n / 10) (Nat.div_lt_self (by omega) (by norm_num)) c h1
      · simp at h2
        exact h2 ▸ hd (n % 10) (Nat.mod_lt _ (by norm_num))

/-- C9: for `length ≥ 1` and a draw inside `random.randint`'s inclusive range
`[10^(length-1), 10^length - 1]`, `generate_otp` returns a string of exactly
`length` decimal digits whose first digit is never the digit 0 (so the
default call with length 6 returns exactly 6 digits). -/
theorem generate_otp_spec (len draw : Nat) (h1 : 1 ≤ len)
    (h2 : 10 ^ (len - 1) ≤ draw) (h3 : draw ≤ 10 ^ len - 1) :
    (generate_otp len draw).length = len ∧
    (generate_otp len draw).data.head? ≠ some '0' ∧
    (∀ c ∈ (generate_otp len draw).data, isAsciiDigit c = true) := by
  have hlt : draw < 10 ^ len := by
    have hp : 1 ≤ 10 ^ len := Nat.one_le_pow _ _ (by norm_num)
    omega
  have hlen : (decimalDigits draw).length = len := by
    have hstep := decimalDigits_length (len - 1) draw h2
      (by rwa [Nat.sub_add_cancel h1])
    rwa [Nat.sub_add_cancel h1] at hstep
  have hpos : 1 ≤ draw :=
    le_trans (Nat.one_le_pow _ _ (by norm_num)) h2
  exact ⟨hlen, decimalDigits_head_ne_zero draw hpos,
    fun c hc => decimalDigits_all_digits draw c hc⟩

/-- C9 witness: the draw 123456 lies in the 6-digit range and yields a
6-character all-digit string not starting with the digit 0. -/
theorem generate_otp_spec_witness :
    1 ≤ 6 ∧ 10 ^ (6 - 1) ≤ 123456 ∧ 123456 ≤ 10 ^ 6 - 1 ∧
    ((generate_otp 6 123456).length = 6 ∧
      (generate_otp 6 123456).data.head? ≠ some '0' ∧
      (∀ c ∈ (generate_otp 6 123456).data, isAsciiDigit c = true)) := by
  exact ⟨by decide, by decide, by decide,
    generate_otp_spec 6 123456 (by decide) (by decide) (by decide)⟩

/-- A payment row belonging to `user1`. -/
def payment1 : Payment :=
  { id := 1, user_id := 1, appointment_id := some 1, transaction_code := "TX1",
    amount := 500, status := .pending, phone_number := some "+254712345678",
    description := none }

/-- C5 evidence: `User` has no `is_admin` attribute, so `get_all_payments`
answers HTTP 500 for every caller and every database (the `AttributeError`
is swallowed by its `except`), and `get_payment` on an existing payment lets
the `AttributeError` escape — no caller ever receives the documented filtered
list, the full list, or a 403. -/
theorem payments_is_admin_bug :
    (∀ (payments : List Payment) (cu : User),
        get_all_payments payments cu = .httpError 500 "Internal server error") ∧
    get_payment [payment1] 1 user1 = .uncaughtExc (.attributeError "is_admin") ∧
    user1.role = .patient ∧ payment1.user_id = user1.id := by
  exact ⟨fun payments cu => rfl, rfl, rfl, rfl⟩

/-- The OAuth helper of the Daraja client performs at most one call. -/
lemma get_access_token_trace (w : StkWorld) :
    (get_access_token w).1 = [] ∨ (get_access_token w).1 = [Call.oauthGet] := by
  unfold get_access_token
  split_ifs <;> simp

/-- Outcome shapes of the Daraja OAuth helper: failure before any call,
failure after its one call, or success after its one call. -/
lemma get_access_token_cases (w : StkWorld) :
    (∃ e, get_access_token w = ([], .error e)) ∨
    (∃ e, get_access_token w = ([Call.oauthGet], .error e)) ∨
    (∃ tok, get_access_token w = ([Call.oauthGet], .ok tok)) := by
  unfold get_access_token
  split_ifs <;> simp

/-- Trace shapes of `stk_push`: nothing, the OAuth call alone, or the OAuth
call followed by a single STK `POST`. -/
lemma stk_push_trace (w : StkWorld) (amount : Rat) (pn ar ds : String) :
    (stk_push w amount pn ar ds).1 = [] ∨
    (stk_push w amount pn ar ds).1 = [Call.oauthGet] ∨
    ∃ p, (stk_push w amount pn ar ds).1 = [Call.oauthGet, Call.stkPost p] := by
  by_cases hconf : (envFalsy w.config.shortcode || envFalsy w.config.passkey ||
      envFalsy w.config.callback_url) = true
  · left
    unfold stk_push
    rw [if_pos hconf]
  · rcases get_access_token_cases w with ⟨e, hga⟩ | ⟨e, hga⟩ | ⟨tok, hga⟩
    · left
      unfold stk_push
      rw [if_neg hconf]
      simp [hga]
    · right; left
      unfold stk_push
      rw [if_neg hconf]
      simp [hga]
    · right; right
      unfold stk_push
      rw [if_neg hconf]
      simp only [hga]
      by_cases hst : isErrStatus w.stkStatus = true
      · rw [if_pos hst]
        exact ⟨_, rfl⟩
      · rw [if_neg hst]
        exact ⟨_, rfl⟩

/-- Trace shapes of `send_otp_sms`: the auth call alone, or the auth call
followed by a single SMS `POST`. -/
lemma send_otp_sms_trace (w : SmsWorld) :
    (send_otp_sms w).1 = [Call.smsAuthGet] ∨
    (send_otp_sms w).1 = [Call.smsAuthGet, Call.smsPost] := by
  unfold send_otp_sms get_safaricom_access_token
  by_cases h1 : isErrStatus w.authStatus = true
  · left; simp [h1]
  · cases ht : w.authToken with
    | none => left; simp [h1, ht]
    | some tok =>
        by_cases h2 : isErrStatus w.smsStatus = true <;>
          right <;> simp [h1, ht, h2]

/-- Trace shapes of `send_otp_email`: a prefix of the four SMTP steps, cut at
the first failing step. -/
lemma send_otp_email_trace (w : SmtpWorld) :
    (send_otp_email w).1 = [Call.smtpConnect] ∨
    (send_otp_email w).1 = [Call.smtpConnect, Call.smtpStarttls] ∨
    (send_otp_email w).1 = [Call.smtpConnect, Call.smtpStarttls, Call.smtpLogin] ∨
    (send_otp_email w).1 =
      [Call.smtpConnect, Call.smtpStarttls, Call.smtpLogin, Call.smtpSendmail] := by
  unfold send_otp_email
  split_ifs <;> simp

/-- A trace whose calls have pairwise distinct kinds contains each call kind
at most once. -/
lemma countKind_le_one_of_pairwise (t : List Call)
    (h : t.Pairwise (fun a b => a.kind ≠ b.kind)) (k : CallKind) :
    countKind t k ≤ 1 := by
  induction t with
  | nil => simp [countKind]
  | cons a t ih =>
      rw [List.pairwise_cons] at h
      unfold countKind
      rw [List.filter_cons]
      by_cases hk : (a.kind == k) = true
      · have hk2 : a.kind = k := by simpa using hk
        have hnone : t.filter (fun c => c.kind == k) = [] := by
          rw [List.filter_eq_nil_iff]
          intro b hb
          have hbk := h.1 b hb
          rw [hk2] at hbk
          simp only [beq_iff_eq]
          exact fun hh => hbk hh.symm
        simp [hk, hnone, countKind]
      · have := ih h.2
        unfold countKind at this
        simpa [hk] using this

/-- C8: each OTP-delivery and payment-gateway function performs each of its
external calls at most once per invocation — the trace of one invocation
never contains two calls of the same kind, so no failed (or successful) call
is ever attempted a second time: there is no retry. -/
theorem no_retry_spec :
    (∀ (w : SmtpWorld) (k : CallKind), countKind (send_otp_email w).1 k ≤ 1) ∧
    (∀ (w : SmsWorld) (k : CallKind), countKind (send_otp_sms w).1 k ≤ 1) ∧
    (∀ (w : StkWorld) (amount : Rat) (pn ar ds : String) (k : CallKind),
      countKind (stk_push w amount pn ar ds).1 k ≤ 1) := by
  refine ⟨fun w k => ?_, fun w k => ?_, fun w amount pn ar ds k => ?_⟩
  · rcases send_otp_email_trace w with h | h | h | h <;> rw [h] <;>
      exact countKind_le_one_of_pairwise _ (by simp [Call.kind]) k
  · rcases send_otp_sms_trace w with h | h <;> rw [h] <;>
      exact countKind_le_one_of_pairwise _ (by simp [Call.kind]) k
  · rcases stk_push_trace w amount pn ar ds with h | h | ⟨p, h⟩ <;> rw [h] <;>
      exact countKind_le_one_of_pairwise _ (by simp [Call.kind]) k

/-- The modelled `int()` is truncation toward zero: the floor of a
non-negative rational and the ceiling of a negative one. -/
lemma pyInt_trunc (q : Rat) :
    (0 ≤ q → pyInt q = ⌊q⌋) ∧ (q < 0 → pyInt q = ⌈q⌉) := by
  have hpos : ∀ r : Rat, 0 ≤ r → pyInt r = ⌊r⌋ := by
    intro r hr
    rw [pyInt, Rat.floor_def]
    exact Int.tdiv_eq_ediv (Rat.num_nonneg.mpr hr) (by positivity)
  refine ⟨hpos q, fun h => ?_⟩
  have h1 : pyInt q = -(pyInt (-q)) := by
    rw [pyInt, pyInt, Rat.neg_num, Rat.neg_den, Int.neg_tdiv, neg_neg]
  rw [h1, hpos (-q) (by linarith), ← Int.ceil_neg, neg_neg]

/-- A fully configured Daraja environment. -/
def darajaConfigFull : DarajaConfig :=
  { consumer_key := some "ck", consumer_secret := some "cs",
    shortcode := some "174379", passkey := some "bfb279f9aa9bdbcf",
    callback_url := some "https://example.com/callback" }

/-- A Daraja environment with all five variables configured, whose OAuth
endpoint fails with HTTP 500. -/
def stkWorldOauthFail : StkWorld :=
  { config := darajaConfigFull,
    timestamp := "20240101120000", oauthStatus := 500, oauthToken := none,
    stkStatus := 200, stkBody := "ServerError" }

/-- C6 counterexample: with `SHORTCODE`, `PASSKEY` and `CALLBACK_URL` all
configured, `stk_push` can still send zero STK-push requests — the OAuth
token fetch fails and its exception propagates — so "otherwise it sends
exactly one STK-push request" is false as stated. -/
theorem stk_push_counterexample :
    (envFalsy stkWorldOauthFail.config.shortcode ||
     envFalsy stkWorldOauthFail.config.passkey ||
     envFalsy stkWorldOauthFail.config.callback_url) = false ∧
    countKind (stk_push stkWorldOauthFail 100 "254712345678" "apt-1"
      "Appointment payment").1 .stkPost = 0 ∧
    (stk_push stkWorldOauthFail 100 "254712345678" "apt-1"
      "Appointment payment").2 = .error (.httpStatusError 500) := by
  refine ⟨by decide, ?_, ?_⟩ <;> decide

/-- C6 (amended): `stk_push` raises when `SHORTCODE`, `PASSKEY` or
`CALLBACK_URL` is unset, performing no external call at all; when they are
configured and the OAuth token fetch succeeds it sends exactly one STK-push
request, whose `Password` is the base64 of `shortcode + passkey + timestamp`
and whose `Amount` is the truncation of the given amount, returning a
dictionary with `ok` false (carrying status code and body) on a vendor HTTP
error status instead of raising; when the token fetch fails, its exception
propagates and no STK-push request is sent. -/
theorem stk_push_spec (w : StkWorld) (amount : Rat) (pn ar ds : String) :
    ((envFalsy w.config.shortcode || envFalsy w.config.passkey ||
        envFalsy w.config.callback_url) = true →
      stk_push w amount pn ar ds =
        ([], .error (.runtimeError
          "SHORTCODE, PASSKEY and CALLBACK_URL must be configured"))) ∧
    ((envFalsy w.config.shortcode || envFalsy w.config.passkey ||
        envFalsy w.config.callback_url) = false →
      (envFalsy w.config.consumer_key || envFalsy w.config.consumer_secret) = false →
      isErrStatus w.oauthStatus = false →
      envFalsy w.oauthToken = false →
      ∃ payload,
        (stk_push w amount pn ar ds).1 = [Call.oauthGet, Call.stkPost payload] ∧
        countKind (stk_push w amount pn ar ds).1 .stkPost = 1 ∧
        payload.Password = String.mk (base64Encode (strEncode
          ((w.config.shortcode).getD "" ++ (w.config.passkey).getD "" ++
            w.timestamp))) ∧
        payload.Amount = pyInt amount ∧
        (isErrStatus w.stkStatus = true →
          (stk_push w amount pn ar ds).2 =
            .ok { ok := false, status_code := w.stkStatus, body := w.stkBody }) ∧
        (isErrStatus w.stkStatus = false →
          (stk_push w amount pn ar ds).2 =
            .ok { ok := true, status_code := w.stkStatus, body := w.stkBody })) ∧
    ((envFalsy w.config.shortcode || envFalsy w.config.passkey ||
        envFalsy w.config.callback_url) = false →
      ∀ t e, get_access_token w = (t, .error e) →
        countKind (stk_push w amount pn ar ds).1 .stkPost = 0 ∧
        (stk_push w amount pn ar ds).2 = .error e) := by
  refine ⟨fun hconf => ?_, fun hconf hck ho ht => ?_, fun hconf t e hga => ?_⟩
  · unfold stk_push
    rw [if_pos hconf]
  · have hga : get_access_token w = ([Call.oauthGet], .ok ((w.oauthToken).getD "")) := by
      unfold get_access_token
      rw [if_neg (by simp_all), if_neg (by simp_all), if_neg (by simp_all)]
    have hb : (envFalsy w.config.shortcode || envFalsy w.config.passkey ||
        envFalsy w.config.callback_url) ≠ true := by simp [hconf]
    unfold stk_push
    rw [if_neg hb]
    simp only [hga]
    by_cases hst : isErrStatus w.stkStatus = true
    · rw [if_pos hst]
      exact ⟨_, rfl, rfl, rfl, rfl, fun _ => rfl, fun hc => absurd hst (by simp [hc])⟩
    · rw [if_neg hst]
      exact ⟨_, rfl, rfl, rfl, rfl, fun hc => absurd hc hst, fun _ => rfl⟩
  · have hb : (envFalsy w.config.shortcode || envFalsy w.config.passkey ||
        envFalsy w.config.callback_url) ≠ true := by simp [hconf]
    have htr : t = [] ∨ t = [Call.oauthGet] := by
      have := get_access_token_trace w
      rw [hga] at this
      exact this
    unfold stk_push
    rw [if_neg hb]
    simp only [hga]
    rcases htr with h | h <;> subst h <;> refine ⟨?_, ?_⟩ <;>
      first
      | rfl
      | trivial

/-- A Daraja environment with all five variables configured, a working OAuth
endpoint, and an STK endpoint answering 503. -/
def stkWorldOk : StkWorld :=
  { config := darajaConfigFull,
    timestamp := "20240101120000", oauthStatus := 200,
    oauthToken := some "token-1", stkStatus := 503,
    stkBody := "Service Unavailable" }

/-- An amount of 501/2 = 250.5, built unreduced so that it evaluates. -/
def amountHalf : Rat := ⟨501, 2, by decide, by decide⟩

/-- C6 witness: in the configured environment, one STK request is sent with
the base64 password and the truncated amount 250, and the vendor's 503 is
returned as an `ok = false` dictionary; in the environment with the failing
OAuth endpoint, no STK request is sent and the exception propagates. -/
theorem stk_push_spec_witness :
    (envFalsy stkWorldOk.config.shortcode || envFalsy stkWorldOk.config.passkey ||
      envFalsy stkWorldOk.config.callback_url) = false ∧
    (envFalsy stkWorldOk.config.consumer_key ||
      envFalsy stkWorldOk.config.consumer_secret) = false ∧
    isErrStatus stkWorldOk.oauthStatus = false ∧
    envFalsy stkWorldOk.oauthToken = false ∧
    pyInt amountHalf = 250 ∧
    (∃ payload,
      (stk_push stkWorldOk amountHalf "254712345678" "apt-1" "Appointment payment").1 =
        [Call.oauthGet, Call.stkPost payload] ∧
      countKind (stk_push stkWorldOk amountHalf "254712345678" "apt-1"
        "Appointment payment").1 .stkPost = 1 ∧
      payload.Password = String.mk (base64Encode (strEncode
        ((stkWorldOk.config.shortcode).getD "" ++
          (stkWorldOk.config.passkey).getD "" ++ stkWorldOk.timestamp))) ∧
      payload.Amount = pyInt amountHalf ∧
      (isErrStatus stkWorldOk.stkStatus = true →
        (stk_push stkWorldOk amountHalf "254712345678" "apt-1"
          "Appointment payment").2 =
          .ok { ok := false, status_code := stkWorldOk.stkStatus,
                body := stkWorldOk.stkBody }) ∧
      (isErrStatus stkWorldOk.stkStatus = false →
        (stk_push stkWorldOk amountHalf "254712345678" "apt-1"
          "Appointment payment").2 =
          .ok { ok := true, status_code := stkWorldOk.stkStatus,
                body := stkWorldOk.stkBody })) := by
  exact ⟨rfl, rfl, rfl, rfl, by decide,
    (stk_push_spec stkWorldOk amountHalf "254712345678" "apt-1"
      "Appointment payment").2.1 rfl rfl rfl rfl⟩

end Mpita
